import Mathlib

/-!
Verification of `src/bellande_rust/bellande_rust_executable.py`
(Architecture-Mechanism/bellande_rust_executable).

The Python source is shallowly embedded: each function of the script is
translated into an executable Lean definition over explicit data; the
filesystem and the external toolchain appear as explicit parameters.
String operations mirror the Python builtins used by the script
(`strip`, `startswith`, `in`, `split(sep, 1)`, `split(sep)`, `lower`,
slicing `[1:-1]`).
-/

/-! ## Python string primitives -/

/-- The whitespace characters removed by Python `str.strip()` for ASCII input. -/
def isPySpace (c : Char) : Bool :=
  c = ' ' || c = '\t' || c = '\n' || c = '\r' || c = '\x0b' || c = '\x0c'

/-- Python `str.strip()` on a character list: remove trailing whitespace, then
leading whitespace (the order is immaterial; trailing is done first so that the
outermost operation is a `dropWhile`, which is convenient in proofs). -/
def pyStripList (l : List Char) : List Char :=
  ((l.reverse.dropWhile isPySpace).reverse).dropWhile isPySpace

/-- Python `str.strip()`. -/
def pyStrip (s : String) : String :=
  ⟨pyStripList s.data⟩

/-- Python `s.startswith(pre)`. -/
def pyStartsWith (s pre : String) : Bool :=
  pre.data.isPrefixOf s.data

/-- Python `s.endswith(suf)`. -/
def pyEndsWith (s suf : String) : Bool :=
  suf.data.reverse.isPrefixOf s.data.reverse

/-- Python `c in s` for a single-character needle `c`. -/
def pyContainsChar (c : Char) (s : String) : Bool :=
  s.data.contains c

/-- Split a character list at the first occurrence of `c`.
Returns the part before and, when `c` occurs, the part after it. -/
def splitFirstList (c : Char) : List Char → List Char × Option (List Char)
  | [] => ([], none)
  | x :: xs =>
    if x = c then ([], some xs)
    else
      let r := splitFirstList c xs
      (x :: r.1, r.2)

/-- Python `s.split(c, 1)` for a one-character separator, under the guard
`c in s` used at every call site (so the second component is present there;
when the separator is absent the second part defaults to empty). -/
def pySplitFirst (c : Char) (s : String) : String × String :=
  let r := splitFirstList c s.data
  (⟨r.1⟩, ⟨r.2.getD []⟩)

/-- Python `s.split(c)` for a one-character separator: `"".split(c)`
yields `[""]`, and every separator occurrence opens a new field. -/
def pySplitAllList (c : Char) : List Char → List (List Char)
  | [] => [[]]
  | x :: xs =>
    let r := pySplitAllList c xs
    if x = c then [] :: r
    else
      match r with
      | h :: t => (x :: h) :: t
      | [] => [[x]]

/-- Python `s.split(c)` on strings. -/
def pySplitAll (c : Char) (s : String) : List String :=
  (pySplitAllList c s.data).map (fun l => ⟨l⟩)

/-- Python `s.strip(chr(34))`: remove any number of double quotes from both ends. -/
def pyStripQuotes (s : String) : String :=
  ⟨((s.data.reverse.dropWhile (fun c => c = '"')).reverse).dropWhile (fun c => c = '"')⟩

/-- Python `s.lower()` (ASCII). -/
def pyLower (s : String) : String :=
  ⟨s.data.map Char.toLower⟩

/-- Python slicing `s[1:-1]`, as used on a bracket-delimited attribute value. -/
def pyInterior (s : String) : String :=
  ⟨(s.data.drop 1).dropLast⟩

/-! ## Data model of the dependency table

The Python parser builds a `dict` whose values are either a bare string or a
nested `dict`; the nested dict maps attribute names to a string, a list of
strings (`features`) or a bool (`optional`). -/

/-- A value stored under an attribute name inside a structured dependency record. -/
inductive AttrVal where
  | str (s : String)
  | strList (l : List String)
  | boolV (b : Bool)
deriving DecidableEq, Repr

/-- The value of one dependency: a bare scalar string or a structured record. -/
inductive DepValue where
  | bare (s : String)
  | record (fields : List (String × AttrVal))
deriving DecidableEq, Repr

/-- Python dict assignment `d[k] = v`, preserving insertion order:
an existing key is updated in place, a new key is appended. -/
def dictSet (tbl : List (String × DepValue)) (k : String) (v : DepValue) :
    List (String × DepValue) :=
  if tbl.any (fun p => p.1 == k) then
    tbl.map (fun p => if p.1 == k then (k, v) else p)
  else
    tbl ++ [(k, v)]

/-- Python dict lookup `d[k]` (as an `Option`; every call site in the script
looks up a key that was inserted earlier). -/
def dictGet (tbl : List (String × DepValue)) (k : String) : Option DepValue :=
  (tbl.find? (fun p => p.1 == k)).map (fun p => p.2)

/-- Assignment into the inner attribute dict of one record. -/
def attrSet (fields : List (String × AttrVal)) (k : String) (v : AttrVal) :
    List (String × AttrVal) :=
  if fields.any (fun p => p.1 == k) then
    fields.map (fun p => if p.1 == k then (k, v) else p)
  else
    fields ++ [(k, v)]

/-- Python `processed_dependencies[cur][k] = v`: update the record stored
under `cur` (a non-record value at `cur` is impossible at the call site,
since the line just above promoted it; it is left unchanged here). -/
def tableAttrSet (tbl : List (String × DepValue)) (cur k : String) (v : AttrVal) :
    List (String × DepValue) :=
  tbl.map (fun p =>
    if p.1 == cur then
      (p.1, match p.2 with
            | DepValue.record fs => DepValue.record (attrSet fs k v)
            | other => other)
    else p)

/-! ## The parser `parse_dependencies`

The script reads the descriptor file, strips the whole content, splits it into
lines, and folds over the lines with two pieces of state: the table built so
far and the name of the current entry (`current_dep`, initially `None`).  The
embedding takes the list of lines as input. -/

/-- The loop state of `parse_dependencies`: the accumulated table and
`current_dep` (`none` = Python `None`). -/
structure ParseState where
  table : List (String × DepValue)
  currentDep : Option String
deriving DecidableEq, Repr

/-- Python truthiness of `current_dep`: `None` and the empty string are falsy. -/
def truthy : Option String → Bool
  | none => false
  | some s => s ≠ ""

/-- One iteration of the loop body of `parse_dependencies`.  Note that the
source reassigns `line = line.strip()` before any classification, so all
later tests (`line.startswith` in particular) see the stripped line. -/
def processLine (st : ParseState) (rawLine : String) : ParseState :=
  let line := pyStrip rawLine
  if line == "" || pyStartsWith line "#" then st
  else if pyContainsChar ':' line && !(pyStartsWith line " ") then
    let parts := pySplitFirst ':' line
    let depName := pyStrip parts.1
    let depValue := pyStripQuotes (pyStrip parts.2)
    { table := dictSet st.table depName (DepValue.bare depValue)
      currentDep := some depName }
  else if pyContainsChar '=' line && pyStartsWith line " " && truthy st.currentDep then
    match st.currentDep with
    | none => st
    | some cur =>
      let parts := pySplitFirst '=' (pyStrip line)
      let attrName := pyStrip parts.1
      let attrValue := pyStrip parts.2
      let tbl1 :=
        match dictGet st.table cur with
        | some (DepValue.bare v) =>
            dictSet st.table cur (DepValue.record [("version", AttrVal.str v)])
        | _ => st.table
      let tbl2 :=
        if attrName == "features" then
          if pyStartsWith attrValue "[" && pyEndsWith attrValue "]" then
            tableAttrSet tbl1 cur "features"
              (AttrVal.strList ((pySplitAll ',' (pyInterior attrValue)).map pyStrip))
          else
            tableAttrSet tbl1 cur "features" (AttrVal.strList [pyStrip attrValue])
        else if attrName == "optional" then
          tableAttrSet tbl1 cur "optional" (AttrVal.boolV (pyLower attrValue == "true"))
        else
          tableAttrSet tbl1 cur attrName (AttrVal.str attrValue)
      { table := tbl2, currentDep := st.currentDep }
  else st

/-- `parse_dependencies`, over the list of lines of the descriptor content. -/
def parse_dependencies (lines : List String) : List (String × DepValue) :=
  (lines.foldl processLine ⟨[], none⟩).table

/-! ## Helper lemmas about stripping -/

/-- The head of `l.dropWhile p` does not satisfy `p`. -/
theorem head_dropWhile_not (p : Char → Bool) (l : List Char) :
    ∀ c : Char, (l.dropWhile p).head? = some c → p c = false := by
  induction l with
  | nil =>
      intro c h
      simp [List.dropWhile] at h
  | cons x xs ih =>
      intro c h
      by_cases hx : p x
      · simp [List.dropWhile, hx] at h
        exact ih c h
      · simp [List.dropWhile, hx] at h
        rw [← h]
        exact Bool.eq_false_iff.mpr hx

/-- The head of a stripped line is never a Python whitespace character. -/
theorem pyStripList_head_not_space (l : List Char) (c : Char)
    (h : (pyStripList l).head? = some c) : isPySpace c = false := by
  unfold pyStripList at h
  exact head_dropWhile_not isPySpace _ c h

/-- After `line = line.strip()`, the test `line.startswith(chr(32))` is false. -/
theorem strip_no_leading_space (s : String) : pyStartsWith (pyStrip s) " " = false := by
  unfold pyStartsWith pyStrip
  have hd : (" " : String).data = [' '] := rfl
  rw [hd]
  cases hl : pyStripList s.data with
  | nil => rfl
  | cons c cs =>
      have hns : isPySpace c = false := by
        apply pyStripList_head_not_space s.data
        rw [hl]
        rfl
      have hc : (' ' == c) = false := by
        cases hcc : (' ' == c) with
        | false => rfl
        | true =>
            have : ' ' = c := by simpa using hcc
            rw [← this] at hns
            simp [isPySpace] at hns
      simp [List.isPrefixOf, hc]

/-! ## Theorems about the parser -/

/-- Every value of the table is a bare string. -/
def allBare (tbl : List (String × DepValue)) : Prop :=
  ∀ p ∈ tbl, ∃ s, p.2 = DepValue.bare s

/-- `dictSet` with a bare value preserves `allBare`. -/
theorem allBare_dictSet (tbl : List (String × DepValue)) (k v : String)
    (h : allBare tbl) : allBare (dictSet tbl k (DepValue.bare v)) := by
  unfold dictSet
  by_cases hk : tbl.any (fun p => p.1 == k) = true
  · rw [if_pos hk]
    intro p hp
    rcases List.mem_map.1 hp with ⟨q, hq, hfq⟩
    by_cases hq1 : q.1 == k
    · rw [if_pos hq1] at hfq
      exact ⟨v, by rw [← hfq]⟩
    · rw [if_neg hq1] at hfq
      exact hfq ▸ h q hq
  · rw [if_neg hk]
    intro p hp
    rcases List.mem_append.1 hp with hp1 | hp2
    · exact h p hp1
    · rcases List.mem_singleton.1 hp2 with rfl
      exact ⟨v, rfl⟩

/-- One loop iteration preserves `allBare`: the attribute branch is dead
because the line is stripped before classification. -/
theorem processLine_allBare (st : ParseState) (raw : String)
    (h : allBare st.table) : allBare (processLine st raw).table := by
  unfold processLine
  simp only [strip_no_leading_space, Bool.false_and, Bool.and_false, if_false]
  split
  · exact h
  · split
    · exact allBare_dictSet st.table _ _ h
    · exact h

/-- The fold over all lines preserves `allBare`. -/
theorem foldl_processLine_allBare (lines : List String) :
    ∀ st : ParseState, allBare st.table →
      allBare ((lines.foldl processLine st).table) := by
  induction lines with
  | nil => intro st h; simpa using h
  | cons l ls ih =>
      intro st h
      exact ih _ (processLine_allBare st l h)

/-- C10: For every input text, every value in the DependencyTable returned by
the parser is a bare string, never a structured record: because each line is
stripped of surrounding whitespace before classification, the attribute-line
branch (which requires the line to begin with a space) is unreachable, so
promotion to the structured record form never occurs. -/
theorem parse_dependencies_values_bare (lines : List String) (p : String × DepValue)
    (hp : p ∈ parse_dependencies lines) : ∃ s, p.2 = DepValue.bare s := by
  have hall : allBare ((lines.foldl processLine ⟨[], none⟩).table) := by
    apply foldl_processLine_allBare
    intro q hq
    simp at hq
  exact hall p hp

/-- Concrete instance of `parse_dependencies_values_bare`. -/
theorem parse_dependencies_values_bare_witness :
    (("logging", DepValue.bare "0.4") ∈ parse_dependencies ["logging: \"0.4\""]) ∧
    ∃ s, (("logging", DepValue.bare "0.4") : String × DepValue).2 = DepValue.bare s :=
  ⟨by decide, parse_dependencies_values_bare ["logging: \"0.4\""] _ (by decide)⟩

/-- C1: the classification the spec describes does not match the code.  The
code strips every line before classifying it, so the indented line
`  serde: 1.0` (leading whitespace, which the claim says makes it a
non-top-level line) is nevertheless recorded as a top-level entry, and the
indented line `  features = [derive]` (which the claim says is an attribute
line binding to the preceding entry) is skipped and binds to nothing. -/
theorem parse_dependencies_ignores_indentation :
    parse_dependencies ["  serde: 1.0"] = [("serde", DepValue.bare "1.0")] ∧
    parse_dependencies ["serde: 1.0", "  features = [derive]"]
      = [("serde", DepValue.bare "1.0")] := by
  decide

/-- C2: a `features` attribute line after a top-level entry has no effect:
the entry stays a bare string and no `features` sequence is ever produced,
neither for the bracketed nor for the unbracketed form. -/
theorem parse_dependencies_features_line_dropped :
    parse_dependencies ["serde: 1.0", "  features = [a, b, c]"]
      = [("serde", DepValue.bare "1.0")] ∧
    parse_dependencies ["serde: 1.0", "  features = x"]
      = [("serde", DepValue.bare "1.0")] := by
  decide

/-- C3: the first attribute line for an entry does not promote the entry to a
structured record with a `version` field; the entry remains the bare scalar. -/
theorem parse_dependencies_no_promotion :
    parse_dependencies ["serde: 1.0", "  optional = true"]
      = [("serde", DepValue.bare "1.0")] := by
  decide

/-! ## The build manifest and `create_cargo_toml` / `update_cargo_toml_dependencies`

The manifest written by the script is a TOML document with the sections
`package` (name, version, edition), optionally `bin` (one entry with a name
and a path), and `dependencies`.  It is embedded as a record. -/

/-- The data of the Cargo manifest the script creates and rewrites. -/
structure CargoConfig where
  packageName : String
  packageVersion : String
  packageEdition : String
  bin : Option (String × String)
  dependencies : List (String × DepValue)
deriving DecidableEq, Repr

/-- `create_cargo_toml`: the manifest initially written, with an empty
dependency table and a `bin` override exactly when the main file is not
`main.rs`. -/
def create_cargo_toml (main_file binary_name project_src_path : String) : CargoConfig :=
  { packageName := binary_name
    packageVersion := "0.1.0"
    packageEdition := "2021"
    bin := if main_file ≠ "main.rs"
           then some (binary_name, project_src_path ++ "/" ++ main_file)
           else none
    dependencies := [] }

/-- The in-memory update performed by `update_cargo_toml_dependencies`:
`cargo_config` with its `dependencies` key reassigned to the parsed table. -/
def update_cargo_toml_dependencies (cfg : CargoConfig) (deps : List (String × DepValue)) :
    CargoConfig :=
  { cfg with dependencies := deps }

/-- The whole operation on the manifest file: read the existing manifest
(the content of `Cargo.toml`, `none` when the file is absent, in which case
the `open` raises), reassign the dependencies section, write it back. -/
def update_manifest_file (content : Option CargoConfig) (deps : List (String × DepValue)) :
    Option CargoConfig :=
  match content with
  | none => none
  | some cfg => some (update_cargo_toml_dependencies cfg deps)

/-- C4: For every pre-existing manifest and every parsed DependencyTable, the
merge replaces the dependencies section with the new table wholesale, and the
package name, version, edition and the binary-target override are unchanged. -/
theorem update_manifest_replaces_deps_wholesale (cfg : CargoConfig)
    (deps : List (String × DepValue)) :
    update_manifest_file (some cfg) deps = some (update_cargo_toml_dependencies cfg deps) ∧
    (update_cargo_toml_dependencies cfg deps).dependencies = deps ∧
    (update_cargo_toml_dependencies cfg deps).packageName = cfg.packageName ∧
    (update_cargo_toml_dependencies cfg deps).packageVersion = cfg.packageVersion ∧
    (update_cargo_toml_dependencies cfg deps).packageEdition = cfg.packageEdition ∧
    (update_cargo_toml_dependencies cfg deps).bin = cfg.bin :=
  ⟨rfl, rfl, rfl, rfl, rfl, rfl⟩

/-! ## `build_project`

The filesystem is a list of existing file paths.  The external toolchain is
abstracted by the data the script observes: whether `cargo --version`
succeeds, and the exit code and captured output of `cargo build --release`.
`shutil.copy2(src, dst)` adds `dst` when `src` exists and raises
`FileNotFoundError` (without touching `dst`) when it does not; the
`os.chmod` call does not change which paths exist. -/

/-- The set of files on disk, as a list of paths. -/
abbrev FS := List String

/-- What the script observes of the external toolchain in one run. -/
structure BuildEnv where
  cargoAvailable : Bool
  exitCode : Nat
  stdoutCap : String
  stderrCap : String
  isWindows : Bool
deriving DecidableEq, Repr

/-- The outcome of `build_project`: `ok` and the three failure modes
(`cargo --version` failing, a nonzero build exit printing the captured
output, and the `FileNotFoundError` raised by `copy2` when the expected
artifact is absent). -/
inductive BuildResult where
  | toolchainUnavailable
  | buildFailed (out err : String)
  | artifactMissing (path : String)
  | ok
deriving DecidableEq, Repr

/-- `exe_extension = chr(46) + "exe" if os.name == "nt" else ""`. -/
def exeExtension (isWindows : Bool) : String :=
  if isWindows then ".exe" else ""

/-- `os.path.join(project_dir, "target", "release", binary_name + exe_extension)`. -/
def builtExePath (project_dir binary_name : String) (isWindows : Bool) : String :=
  project_dir ++ "/target/release/" ++ binary_name ++ exeExtension isWindows

/-- `build_project(project_dir, output_path, binary_name)`: result and the
filesystem afterwards. -/
def build_project (env : BuildEnv) (project_dir output_path binary_name : String)
    (fs : FS) : BuildResult × FS :=
  if env.cargoAvailable = false then (BuildResult.toolchainUnavailable, fs)
  else if env.exitCode = 0 then
    let built := builtExePath project_dir binary_name env.isWindows
    if fs.contains built then (BuildResult.ok, output_path :: fs)
    else (BuildResult.artifactMissing built, fs)
  else (BuildResult.buildFailed env.stdoutCap env.stderrCap, fs)

/-- C5: when the external build exits with a nonzero status, `build_project`
fails carrying the captured stdout and stderr, the filesystem is unchanged,
and no file appears at the destination path. -/
theorem build_project_nonzero_exit_no_copy (env : BuildEnv)
    (pd out bn : String) (fs : FS)
    (hc : env.cargoAvailable = true) (he : env.exitCode ≠ 0) (hd : out ∉ fs) :
    (build_project env pd out bn fs).1 = BuildResult.buildFailed env.stdoutCap env.stderrCap ∧
    (build_project env pd out bn fs).2 = fs ∧
    out ∉ (build_project env pd out bn fs).2 := by
  unfold build_project
  rw [hc]
  simp only [Bool.true_eq_false, if_false, if_neg he]
  exact ⟨trivial, trivial, hd⟩

/-- Concrete instance of `build_project_nonzero_exit_no_copy`. -/
theorem build_project_nonzero_exit_no_copy_witness :
    ((⟨true, 101, "So", "Se", false⟩ : BuildEnv).cargoAvailable = true ∧
      (⟨true, 101, "So", "Se", false⟩ : BuildEnv).exitCode ≠ 0 ∧
      ("dest" : String) ∉ ([] : FS)) ∧
    ((build_project ⟨true, 101, "So", "Se", false⟩ "proj" "dest" "bin" []).1
        = BuildResult.buildFailed "So" "Se" ∧
      (build_project ⟨true, 101, "So", "Se", false⟩ "proj" "dest" "bin" []).2 = [] ∧
      ("dest" : String) ∉ (build_project ⟨true, 101, "So", "Se", false⟩ "proj" "dest" "bin" []).2) :=
  ⟨⟨rfl, by decide, by decide⟩,
    build_project_nonzero_exit_no_copy ⟨true, 101, "So", "Se", false⟩ "proj" "dest" "bin" []
      rfl (by decide) (by decide)⟩

/-- C6: when the build exits with status 0 but the expected artifact
`project_dir/target/release/<binary><ext>` does not exist, `build_project`
fails with the artifact-missing error (the `FileNotFoundError` that
`shutil.copy2` raises on a missing source) and nothing is written at the
destination path. -/
theorem build_project_artifact_missing_no_copy (env : BuildEnv)
    (pd out bn : String) (fs : FS)
    (hc : env.cargoAvailable = true) (he : env.exitCode = 0)
    (ha : fs.contains (builtExePath pd bn env.isWindows) = false) (hd : out ∉ fs) :
    (build_project env pd out bn fs).1
      = BuildResult.artifactMissing (builtExePath pd bn env.isWindows) ∧
    (build_project env pd out bn fs).2 = fs ∧
    out ∉ (build_project env pd out bn fs).2 := by
  unfold build_project
  rw [hc]
  simp only [Bool.true_eq_false, if_false, if_pos he, ha, Bool.false_eq_true]
  exact ⟨trivial, trivial, hd⟩

/-- Concrete instance of `build_project_artifact_missing_no_copy`. -/
theorem build_project_artifact_missing_no_copy_witness :
    ((⟨true, 0, "", "", false⟩ : BuildEnv).cargoAvailable = true ∧
      (⟨true, 0, "", "", false⟩ : BuildEnv).exitCode = 0 ∧
      ([] : FS).contains (builtExePath "proj" "bin" false) = false ∧
      ("dest" : String) ∉ ([] : FS)) ∧
    ((build_project ⟨true, 0, "", "", false⟩ "proj" "dest" "bin" []).1
        = BuildResult.artifactMissing (builtExePath "proj" "bin" false) ∧
      (build_project ⟨true, 0, "", "", false⟩ "proj" "dest" "bin" []).2 = [] ∧
      ("dest" : String) ∉ (build_project ⟨true, 0, "", "", false⟩ "proj" "dest" "bin" []).2) :=
  ⟨⟨rfl, rfl, by decide, by decide⟩,
    build_project_artifact_missing_no_copy ⟨true, 0, "", "", false⟩ "proj" "dest" "bin" []
      rfl rfl (by decide) (by decide)⟩

/-! ## `copy_source_files`

A source tree is the set of regular files (relative path segments plus an
abstract metadata token, copied verbatim by `shutil.copy2`) together with the
set of all subdirectories that `os.walk` visits.  The loop
`for root, _, files in os.walk(src_dir)` discards the directory names (`_`)
and only calls `ensure_directory(os.path.dirname(dest_path))` for each file,
so the directories created under the workspace are exactly the ancestors of
copied files (`os.makedirs` creates every missing ancestor). -/

/-- A source tree: files as (relative segment path, metadata) and the
relative paths of all subdirectories. -/
structure SrcTree where
  files : List (List String × Nat)
  dirs : List (List String)
deriving DecidableEq, Repr

/-- All nonempty ancestors of a relative directory path, the path itself
included, as created by `os.makedirs(..., exist_ok=True)`. -/
def pathAncestors (p : List String) : List (List String) :=
  (List.range p.length).map (fun k => p.take (k + 1))

/-- What `copy_source_files` produces under `dest_dir/project_src_path`. -/
structure StagedWorkspace where
  dirsCreated : List (List String)
  filesCopied : List (List String × Nat)
deriving DecidableEq, Repr

/-- `copy_source_files(src_dir, dest_dir, project_src_path)`: raises
`FileNotFoundError` when the source directory does not exist; otherwise
copies every walked file to the same relative path (metadata preserved by
`shutil.copy2`) and creates the ancestor directories of each file. -/
def copy_source_files (srcExists : Bool) (t : SrcTree) :
    Except String StagedWorkspace :=
  if srcExists = false then
    Except.error "Source directory not found"
  else
    Except.ok
      { dirsCreated := (t.files.map (fun f => pathAncestors f.1.dropLast)).flatten
        filesCopied := t.files }

/-- C7 as stated is false: a subdirectory containing no files is not
recreated.  The tree has one file `main.rs` at the root and one empty
subdirectory `emptydir`; staging creates no directory at all, in particular
not `emptydir`. -/
theorem copy_source_files_empty_dir_cex :
    copy_source_files true ⟨[(["main.rs"], 7)], [["emptydir"]]⟩
      = Except.ok { dirsCreated := [], filesCopied := [(["main.rs"], 7)] } ∧
    ["emptydir"] ∈ (⟨[(["main.rs"], 7)], [["emptydir"]]⟩ : SrcTree).dirs ∧
    ["emptydir"] ∉
      ({ dirsCreated := [], filesCopied := [(["main.rs"], 7)] } : StagedWorkspace).dirsCreated :=
  ⟨rfl, by decide, by decide⟩

/-- C7 (amended): for every existing source directory, staging copies every
file so that its path (and metadata) relative to the workspace source root
equals its path relative to the source directory, and the recreated
subdirectories are exactly the ancestors of the copied files; subdirectories
containing no files are not recreated. -/
theorem copy_source_files_preserves_paths (t : SrcTree) :
    ∃ w, copy_source_files true t = Except.ok w ∧
      w.filesCopied = t.files ∧
      ∀ d, d ∈ w.dirsCreated ↔ ∃ f ∈ t.files, d ∈ pathAncestors f.1.dropLast := by
  refine ⟨_, rfl, rfl, ?_⟩
  intro d
  constructor
  · intro hd
    rcases List.mem_flatten.1 hd with ⟨l, hl, hdl⟩
    rcases List.mem_map.1 hl with ⟨f, hf, hfl⟩
    exact ⟨f, hf, hfl ▸ hdl⟩
  · rintro ⟨f, hf, hd⟩
    exact List.mem_flatten.2 ⟨_, List.mem_map.2 ⟨f, hf, rfl⟩, hd⟩

/-! ## Manifest writes: `with open(path, chr(119)) as f: toml.dump(cfg, f)`

Both `create_cargo_toml` and `update_cargo_toml_dependencies` write the
manifest by opening the target path in write mode, which truncates the file
before the serializer runs, and then dumping into it directly.  The file
content is modelled as `Option String` (`none` = absent); `failDuringWrite`
injects an I/O failure between the truncation and the completed
serialization, after which the file holds the truncated content. -/

/-- One in-place manifest write: returns whether the call succeeded and the
resulting file content. -/
def write_manifest_in_place (_old : Option String) (new : String)
    (failDuringWrite : Bool) : Bool × Option String :=
  if failDuringWrite then (false, some "")
  else (true, some new)

/-- C8 as stated is false: a write that fails during serialization leaves the
file truncated, not with its prior content.  With prior content `[package]`
and an injected failure, the call fails and the content is the empty string,
which is neither the new state nor the prior content. -/
theorem write_manifest_atomicity_cex :
    ¬ (((write_manifest_in_place (some "[package]") "new" true).1 = true ∧
          (write_manifest_in_place (some "[package]") "new" true).2 = some "new") ∨
        ((write_manifest_in_place (some "[package]") "new" true).1 = false ∧
          (write_manifest_in_place (some "[package]") "new" true).2 = some "[package]")) := by
  decide

/-- C8 (amended): a manifest write that completes leaves exactly the new
state; but the write happens in place, truncating the file on open, so a
failure during serialization leaves the truncated file behind rather than
the prior content — the operation is not atomic. -/
theorem write_manifest_in_place_spec (old : Option String) (new : String) :
    write_manifest_in_place old new false = (true, some new) ∧
    write_manifest_in_place old new true = (false, some "") :=
  ⟨rfl, rfl⟩

/-! ## `main`: orchestration and cleanup

`main` runs the pipeline inside `try`, returns 1 from `except` on any raised
error and on a failed build, 0 on success, and in `finally` removes the
build directory with `shutil.rmtree(build_dir, ignore_errors=True)` unless
`--debug` was given.  The oracle record carries the outcome of each
fallible step and whether the (error-ignoring) removal actually succeeds. -/

/-- The outcomes of the fallible steps of one run. -/
structure RunOracle where
  debug : Bool
  copyOk : Bool
  createOk : Bool
  parseOk : Bool
  updateOk : Bool
  buildOk : Bool
  rmtreeOk : Bool
deriving DecidableEq, Repr

/-- The exit status computed by the `try` / `except` body of `main`:
any raised step and a `False` from `build_project` give 1, success gives 0. -/
def tryBlockExit (c : RunOracle) : Nat :=
  if c.copyOk = false then 1
  else if c.createOk = false then 1
  else if c.parseOk = false then 1
  else if c.updateOk = false then 1
  else if c.buildOk then 0 else 1

/-- Whether the build directory still exists after the `finally` block:
kept in debug mode; otherwise removed by `shutil.rmtree(...,
ignore_errors=True)`, which leaves the directory behind only when the
removal itself fails (and never raises). -/
def finalWorkspaceExists (c : RunOracle) : Bool :=
  if c.debug then true
  else if c.rmtreeOk then false
  else true

/-- `main`: the exit status and whether the workspace directory remains. -/
def mainRun (c : RunOracle) : Nat × Bool :=
  (tryBlockExit c, finalWorkspaceExists c)

/-- C9: whatever the terminal state of the run, when retention was not
requested the workspace directory is gone after a successful removal, and
the outcome of the removal never changes the exit status (the removal runs
with errors ignored, after the exit status is already determined). -/
theorem main_cleanup_removes_workspace (c : RunOracle) (b : Bool)
    (hd : c.debug = false) (hr : c.rmtreeOk = true) :
    (mainRun c).2 = false ∧
    (mainRun { c with rmtreeOk := b }).1 = (mainRun c).1 := by
  constructor
  · simp [mainRun, finalWorkspaceExists, hd, hr]
  · rfl

/-- Concrete instance of `main_cleanup_removes_workspace`. -/
theorem main_cleanup_removes_workspace_witness :
    ((⟨false, true, true, true, true, false, true⟩ : RunOracle).debug = false ∧
      (⟨false, true, true, true, true, false, true⟩ : RunOracle).rmtreeOk = true) ∧
    ((mainRun ⟨false, true, true, true, true, false, true⟩).2 = false ∧
      (mainRun { (⟨false, true, true, true, true, false, true⟩ : RunOracle) with
        rmtreeOk := false }).1
        = (mainRun ⟨false, true, true, true, true, false, true⟩).1) :=
  ⟨⟨rfl, rfl⟩,
    main_cleanup_removes_workspace ⟨false, true, true, true, true, false, true⟩ false rfl rfl⟩
